import Mathlib

/-!
Verification of the data-access layer of `sqint` (src/sqint/sqint.py): a
terminal viewer/editor for SQLite databases.  The Python source is shallowly
embedded below: the `Database` methods that build SQL text and bind
parameters are translated into pure Lean functions on lists and strings, the
sqlite3 engine is modelled explicitly where a claim depends on its behaviour
(lazy file opening, `pragma_table_info` output, execution of the generated
statements on a simple table model), and Python exceptions are modelled with
`Except`.
-/

set_option autoImplicit false

namespace SqintModel

/-- Model of the Python exceptions that can arise on the code paths under
study.  `operationalError` and `databaseError` model `sqlite3.OperationalError`
and the other `sqlite3.DatabaseError` subclasses (`OperationalError` is itself
a `DatabaseError`); `attributeError` models `AttributeError` (an attribute
such as `self.connection` does not exist); `indexError` models `IndexError`. -/
inductive PyErr where
  | operationalError (msg : String)
  | databaseError (msg : String)
  | attributeError
  | indexError
  deriving DecidableEq, Repr

/-- Whether the exception is an `isinstance` of `sqlite3.DatabaseError`
(`sqlite3.OperationalError` is a subclass of it). -/
def PyErr.isDatabaseError : PyErr → Bool
  | .operationalError _ => true
  | .databaseError _ => true
  | _ => false

/-- Whether the exception is an `isinstance` of `sqlite3.Error`.  In the
model the only `sqlite3.Error` values are the `DatabaseError` ones. -/
def PyErr.isSqliteError : PyErr → Bool
  | .operationalError _ => true
  | .databaseError _ => true
  | _ => false

/-- Model of the relevant state of a `sqlite3` cursor after a successful
`connection.execute`: `cursor.description` (`none` when the statement
returns no rows, e.g. an `INSERT`; otherwise the list of column names) and
the rows that `cursor.fetchall()` returns, each cell already rendered with
`str`. -/
structure Cursor where
  description : Option (List String)
  rows : List (List String)
  deriving DecidableEq, Repr

/-- From src/sqint/sqint.py, `escape_identifier`:

    def escape_identifier(name: str):
        return "\"" + name.replace("\"", "\"\"") + "\""

`str.replace` with the one-character pattern `"` rewrites each occurrence of
that character; `escapeChars` performs exactly that rewriting character by
character. -/
def escapeChars : List Char → List Char
  | [] => []
  | c :: rest =>
      if c = '"' then '"' :: '"' :: escapeChars rest
      else c :: escapeChars rest

/-- `escape_identifier` from src/sqint/sqint.py line 42: wrap the name in
double quotes, doubling every embedded double quote. -/
def escape_identifier (name : String) : String :=
  "\"" ++ String.mk (escapeChars name.data) ++ "\""

namespace Database

/-- Model of `Database.query` (src/sqint/sqint.py lines 67-80):

    args = () if args is None else args
    columns = []
    rows = [[]]
    try:
        cursor = self.connection.execute(query, args)
    except AttributeError:
        pass
    else:
        if cursor.description:
            columns = [col[0] for col in cursor.description]
            rows = [[str(col) for col in row] for row in cursor.fetchall()]
    return columns, rows

`connExists` models whether `self.connection` is set (it is not before a
successful `load`, so the attribute access raises `AttributeError`, which is
the one exception `query` catches).  `execOutcome` is what
`self.connection.execute` does for the given query text and arguments: either
a cursor, or an exception, which `query` does not catch and therefore
propagates. -/
def query (connExists : Bool) (execOutcome : Except PyErr Cursor) :
    Except PyErr (List String × List (List String)) :=
  if connExists then
    match execOutcome with
    | .error e => .error e
    | .ok cur =>
        match cur.description with
        | none => .ok ([], [[]])
        | some cols => .ok (cols, cur.rows)
  else
    .ok ([], [[]])

/-- One row of `pragma_table_info` output: column id (ordinal position),
name, declared type, declared default value (`none` when there is none), and
`pk` — zero when the column is not part of the primary key, otherwise the
one-based index of the column within the primary key (so a composite primary
key `(a, b)` gives `a.pk = 1` and `b.pk = 2`).  `pragma_table_info` returns
its rows in ordinal (`cid`) order. -/
structure ColumnInfo where
  cid : Nat
  name : String
  declType : String
  dflt : Option String
  pk : Nat
  deriving DecidableEq, Repr

/-- Model of `Database.primary_keys` (src/sqint/sqint.py lines 106-113) on an
open connection.  The method runs

    SELECT l.name FROM pragma_table_info(<escaped name>) as l WHERE l.pk = 1;

over the table's column metadata `cols` (given in ordinal order, as
`pragma_table_info` returns it) and falls back to `['rowid']` when the
filter selects nothing.  Note the SQL keeps exactly the rows whose `pk`
value equals 1. -/
def primary_keys (cols : List ColumnInfo) : List String :=
  let rowstrs := (cols.filter fun c => c.pk == 1).map fun c => c.name
  if rowstrs.isEmpty then ["rowid"] else rowstrs

/-- Refinement target taken from the spec's words, for comparison with
`Database.primary_keys`: "derived by filtering `columnsOf` for the
primary-key flag, ordered by ordinal position", i.e. every column that is
part of the primary key (`pk` nonzero), with the same `['rowid']` fallback. -/
def spec_primary_keys (cols : List ColumnInfo) : List String :=
  let pks := (cols.filter fun c => c.pk != 0).map fun c => c.name
  if pks.isEmpty then ["rowid"] else pks

/-- SQL text built by `Database.table_info` (src/sqint/sqint.py line 94). -/
def table_info_sql (name : String) : String :=
  "PRAGMA table_info(" ++ escape_identifier name ++ ");"

/-- SQL text built by `Database.table_data` (src/sqint/sqint.py lines 97-104):

    primary_keys = self.primary_keys(name)
    if not name in self.views and primary_keys[0] == 'rowid':
        columns, rows = self.query(f'SELECT rowid, * FROM {escape_identifier(name)}')
    else:
        columns, rows = self.query(f'SELECT * FROM {escape_identifier(name)}')

`views` is the snapshot loaded by `load`; `cols` is the table's
`pragma_table_info` metadata, which drives `primary_keys`.  `primary_keys`
never returns an empty list, so the subscript `[0]` is modelled with
`headD`.  `table_data_uses_rowid` is the `if` condition, and
`table_data_sql` the SELECT text it chooses. -/
def table_data_uses_rowid (views : List String) (cols : List ColumnInfo)
    (name : String) : Bool :=
  !(views.contains name) && ((primary_keys cols).headD "" == "rowid")

/-- The SELECT text `table_data` issues, driven by `table_data_uses_rowid`. -/
def table_data_sql (views : List String) (cols : List ColumnInfo) (name : String) : String :=
  if table_data_uses_rowid views cols name then
    "SELECT rowid, * FROM " ++ escape_identifier name
  else
    "SELECT * FROM " ++ escape_identifier name

/-- Engine model: column headers of the result produced by the statement
`table_data` issues — the `rowid` pseudo-column is prepended exactly when the
generated SELECT names it first. -/
def table_data_columns (views : List String) (cols : List ColumnInfo) (name : String) :
    List String :=
  if table_data_uses_rowid views cols name then
    "rowid" :: cols.map fun c => c.name
  else
    cols.map fun c => c.name

/-- SQL text built by `Database.query_single` (src/sqint/sqint.py lines
82-90):

    query = f'SELECT {escape_identifier(column)} from {escape_identifier(tablename)} '
    if conditions:
        query += 'where ' + ' and '.join(f'{key}=?' for key in conditions.keys())

The condition mapping is modelled as a list of key/value pairs in mapping
order (Python dicts preserve insertion order); the empty list models both
`None` and an empty dict, which are equally falsy.  Note the condition keys
are interpolated as bare `key=?`, without `escape_identifier`. -/
def query_single_sql (tablename column : String) (conditions : List (String × String)) :
    String :=
  let q := "SELECT " ++ escape_identifier column ++ " from "
    ++ escape_identifier tablename ++ " "
  if conditions.isEmpty then q
  else q ++ "where " ++ String.intercalate " and " (conditions.map fun kv => kv.1 ++ "=?")

/-- Bound arguments of `Database.query_single`: `None` when there are no
conditions, otherwise the condition values in mapping order. -/
def query_single_args (conditions : List (String × String)) : Option (List String) :=
  if conditions.isEmpty then none else some (conditions.map fun kv => kv.2)

/-- Refinement target taken from the spec's words for the single-cell read:
the same SELECT but with every condition-column name passed through
`escape_identifier`. -/
def spec_query_single_sql (tablename column : String)
    (conditions : List (String × String)) : String :=
  let q := "SELECT " ++ escape_identifier column ++ " from "
    ++ escape_identifier tablename ++ " "
  if conditions.isEmpty then q
  else q ++ "where "
    ++ String.intercalate " and " (conditions.map fun kv => escape_identifier kv.1 ++ "=?")

/-- Model of the value-extraction step of `Database.query_single`
(src/sqint/sqint.py lines 89-90):

    _, rows = self.query(query, args)
    return rows[0][0]

`rows[0]` raises `IndexError` when the result set is empty, and `rows[0][0]`
raises when the first row is empty. -/
def query_single (connExists : Bool) (execOutcome : Except PyErr Cursor) :
    Except PyErr String :=
  match query connExists execOutcome with
  | .error e => .error e
  | .ok (_, rows) =>
      match rows with
      | [] => .error .indexError
      | r0 :: _ =>
          match r0 with
          | [] => .error .indexError
          | c0 :: _ => .ok c0

/-- SQL text and bound arguments built by `Database.update`
(src/sqint/sqint.py lines 115-124):

    args = [value]
    sql = f'UPDATE {escape_identifier(tablename)} SET {escape_identifier(colunmname)}=? '
    if where:
        searchstrs = ' and '.join(f'{pk}=?' for pk in where.keys())
        sql += ' WHERE ' + searchstrs
        args += where.values()

As in `query_single`, the condition keys are interpolated bare, without
`escape_identifier`, and the empty list models a falsy `where`. -/
def update_stmt (tablename colunmname value : String)
    (where_ : List (String × String)) : String × List String :=
  let args := [value]
  let sql := "UPDATE " ++ escape_identifier tablename ++ " SET "
    ++ escape_identifier colunmname ++ "=? "
  if where_.isEmpty then (sql, args)
  else
    (sql ++ " WHERE " ++ String.intercalate " and " (where_.map fun kv => kv.1 ++ "=?"),
     args ++ where_.map fun kv => kv.2)

/-- Refinement target taken from the spec's words for `updateField`: the same
UPDATE but with every condition-column name passed through
`escape_identifier`. -/
def spec_update_sql (tablename colunmname : String)
    (where_ : List (String × String)) : String :=
  let sql := "UPDATE " ++ escape_identifier tablename ++ " SET "
    ++ escape_identifier colunmname ++ "=? "
  if where_.isEmpty then sql
  else sql ++ " WHERE "
    ++ String.intercalate " and " (where_.map fun kv => escape_identifier kv.1 ++ "=?")

/-- The calls `Database.update` makes on the connection: execute the built
statement with its bound arguments, then commit. -/
inductive ConnOp where
  | execute (sql : String) (args : List String)
  | commit
  deriving DecidableEq, Repr

/-- Connection operations performed by `Database.update` (lines 123-124):
`self.connection.execute(sql, args)` followed by `self.connection.commit()`. -/
def update_ops (tablename colunmname value : String)
    (where_ : List (String × String)) : List ConnOp :=
  let s := update_stmt tablename colunmname value where_
  [ConnOp.execute s.1 s.2, ConnOp.commit]

/-- SQL text and bound arguments built by `Database.insert`
(src/sqint/sqint.py lines 126-133):

    colstr = ','.join(escape_identifier(v) for v in values.keys())
    qs = ','.join('?'*len(values))
    sql = (f'INSERT INTO {escape_identifier(tablename)} '
           f'({colstr}) VALUES({qs})')
    self.connection.execute(sql, list(values.values()))

`values` is the insert mapping as a list of key/value pairs in mapping
order. -/
def insert_stmt (tablename : String) (values : List (String × String)) :
    String × List String :=
  let colstr := String.intercalate "," (values.map fun v => escape_identifier v.1)
  let qs := String.intercalate "," (List.replicate values.length "?")
  ("INSERT INTO " ++ escape_identifier tablename ++ " (" ++ colstr ++ ") VALUES(" ++ qs ++ ")",
   values.map fun v => v.2)

/-- Connection operations performed by `Database.insert` (lines 132-133):
execute the built statement, then commit. -/
def insert_ops (tablename : String) (values : List (String × String)) : List ConnOp :=
  let s := insert_stmt tablename values
  [ConnOp.execute s.1 s.2, ConnOp.commit]

end Database

/-- Model of `Database.update`'s execution step (src/sqint/sqint.py line
123): `self.connection.execute(sql, args)`.  `update` wraps nothing in a
`try`, so before a successful `load` the access to `self.connection` raises
`AttributeError`, and on an open connection any engine error from `execute`
(modelled by `execOutcome`) propagates as well. -/
def Database.update_exec (connExists : Bool) (execOutcome : Except PyErr Unit) :
    Except PyErr Unit :=
  if connExists then execOutcome else .error .attributeError

/-- Model of `Database.insert`'s execution step (src/sqint/sqint.py line
132), with the same shape as `Database.update_exec`: no `try` anywhere in
`insert`. -/
def Database.insert_exec (connExists : Bool) (execOutcome : Except PyErr Unit) :
    Except PyErr Unit :=
  if connExists then execOutcome else .error .attributeError

/-- Model of the Python list comprehension `[r[0] for r in rows]`
(src/sqint/sqint.py lines 61, 64, 110): evaluated left to right, it raises
`IndexError` at the first empty row.  On the `[[]]` sentinel that `query`
returns for an unusable connection, the very first row is empty and the
comprehension raises. -/
def pyHeads : List (List String) → Except PyErr (List String)
  | [] => .ok []
  | r :: rest =>
      match r with
      | [] => .error .indexError
      | c :: _ =>
          match pyHeads rest with
          | .error e => .error e
          | .ok cs => .ok (c :: cs)

/-- Model of the full control flow of `Database.primary_keys`
(src/sqint/sqint.py lines 106-113):

    _, rows = self.query(
        f'SELECT l.name FROM pragma_table_info({escape_identifier(name)}) as l WHERE l.pk = 1;')
    rowstrs = [r[0] for r in rows]
    if not rowstrs:
        rowstrs = ['rowid']
    return rowstrs

`execOutcome` is the engine's response to the pk SELECT on an open
connection (for the response's shape see `Database.primary_keys`, the pure
model of the open-connection result).  Before a successful open, `query`
returns its `([], [[]])` defaults and the comprehension `r[0]` raises an
uncaught `IndexError`. -/
def Database.primary_keys_run (connExists : Bool) (execOutcome : Except PyErr Cursor) :
    Except PyErr (List String) :=
  match Database.query connExists execOutcome with
  | .error e => .error e
  | .ok (_, rows) =>
      match pyHeads rows with
      | .error e => .error e
      | .ok rowstrs => .ok (if rowstrs.isEmpty then ["rowid"] else rowstrs)

/-- Model of the full control flow of `Database.table_data`
(src/sqint/sqint.py lines 97-104): it first calls `self.primary_keys(name)`
(line 99) and then issues one of the two SELECT forms of `table_data_sql`
through `query`.  `rowidExec` and `plainExec` are the engine's responses to
the two possible SELECT texts.  Before a successful open the `primary_keys`
call already raises, so neither SELECT is reached. -/
def Database.table_data_run (connExists : Bool) (pkExec : Except PyErr Cursor)
    (views : List String) (name : String) (rowidExec plainExec : Except PyErr Cursor) :
    Except PyErr (List String × List (List String)) :=
  match Database.primary_keys_run connExists pkExec with
  | .error e => .error e
  | .ok pks =>
      if !(views.contains name) && (pks.headD "" == "rowid") then
        Database.query connExists rowidExec
      else
        Database.query connExists plainExec

/-- What `sqlite3.connect(path)` can find at a path.  `validDb` carries the
names the catalog queries of `load` will return; `missing` is a path with no
file (sqlite then creates a fresh empty database); `invalidFile` is an
existing file that is not a SQLite database (the lazy open succeeds, and the
first statement executed on the connection raises
`sqlite3.DatabaseError: file is not a database`); `unopenable` is a path the
engine cannot open at all (a directory, or permission denied), for which
`connect` itself raises `sqlite3.OperationalError`. -/
inductive PathStatus where
  | validDb (tables views : List String)
  | missing
  | invalidFile
  | unopenable
  deriving DecidableEq, Repr

/-- Model of an open `sqlite3` connection as far as `load` needs it:
whether the backing file is actually a database, and the catalog's table and
view names. -/
structure Conn where
  fileValid : Bool
  tables : List String
  views : List String
  deriving DecidableEq, Repr

/-- Engine model of `sqlite3.connect`: only an unopenable path raises at
connect time (SQLite opens the file lazily); a missing path yields a fresh
empty database. -/
def sqlite3_connect : PathStatus → Except PyErr Conn
  | .validDb ts vs => .ok ⟨true, ts, vs⟩
  | .missing => .ok ⟨true, [], []⟩
  | .invalidFile => .ok ⟨false, [], []⟩
  | .unopenable => .error (.operationalError "unable to open database file")

/-- Engine model of executing
`SELECT name FROM sqlite_schema WHERE type='...'` on a connection: on a real
database the cursor has one `name` column and one single-cell row per
catalog object; on a connection to a non-database file the statement raises
`sqlite3.DatabaseError`. -/
def Conn.execCatalog (c : Conn) (objtype : String) : Except PyErr Cursor :=
  if c.fileValid then
    .ok ⟨some ["name"],
         (if objtype == "table" then c.tables else c.views).map fun n => [n]⟩
  else
    .error (.databaseError "file is not a database")

/-- Outcome of `Database.load` when it returns: `failed` is `return False`,
`loaded` is `return True` together with the `self.tables` and `self.views`
snapshot it populated. -/
inductive LoadResult where
  | failed
  | loaded (tables views : List String)
  deriving DecidableEq, Repr

/-- Model of `Database.load` (src/sqint/sqint.py lines 50-65):

    try:
        self.connection = sqlite3.connect(path)
    except sqlite3.DatabaseError:
        return False
    ...
    _, tables = self.query("SELECT name FROM sqlite_schema WHERE type='table'")
    self.tables = [t[0] for t in tables]
    _, views = self.query("SELECT name FROM sqlite_schema WHERE type='view'")
    self.views = [v[0] for v in views]
    return True

Only the `connect` call is guarded; the two catalog reads go through
`Database.query`, which catches nothing but `AttributeError`, so a
`DatabaseError` raised there escapes `load`.  The comprehension `t[0]`
is total here because the catalog cursor rows are single-cell by
construction (`headD ""` models the subscript). -/
def Database.load (st : PathStatus) : Except PyErr LoadResult :=
  match sqlite3_connect st with
  | .error e => if e.isDatabaseError then .ok .failed else .error e
  | .ok conn =>
      match Database.query true (conn.execCatalog "table") with
      | .error e => .error e
      | .ok (_, tableRows) =>
          match Database.query true (conn.execCatalog "view") with
          | .error e => .error e
          | .ok (_, viewRows) =>
              .ok (.loaded (tableRows.map fun r => r.headD "")
                           (viewRows.map fun r => r.headD ""))

namespace Sqint

/-- Model of `Sqint.on_input_submitted` (src/sqint/sqint.py lines 450-462),
the free-form ad-hoc query path:

    try:
        columns, result = self.database.query(query)
    except sqlite3.OperationalError as err:
        columns = ['Error',]
        result = [[str(err)]]

`res` is the outcome of `self.database.query(query)`; only
`sqlite3.OperationalError` is caught and rendered as the synthetic
one-column, one-row error result. -/
def on_input_submitted (res : Except PyErr (List String × List (List String))) :
    Except PyErr (List String × List (List String)) :=
  match res with
  | .error (.operationalError msg) => .ok (["Error"], [[msg]])
  | other => other

/-- Model of the exception handling in `Sqint.on_field_editor_change_field`
(src/sqint/sqint.py lines 419-433) around `self.database.update(...)`:
`sqlite3.Error` is caught (`.ok false`, the UI cell is left unchanged), a
successful write applies the UI update (`.ok true`), and any other exception
propagates out of the handler. -/
def on_field_editor_change_field (res : Except PyErr Unit) : Except PyErr Bool :=
  match res with
  | .ok _ => .ok true
  | .error e => if e.isSqliteError then .ok false else .error e

/-- Model of the exception handling in `Sqint.on_insert_editor_insert_row`
(src/sqint/sqint.py lines 435-448) around `self.database.insert(...)`: the
same `except sqlite3.Error: pass` shape as the field editor handler. -/
def on_insert_editor_insert_row (res : Except PyErr Unit) : Except PyErr Bool :=
  match res with
  | .ok _ => .ok true
  | .error e => if e.isSqliteError then .ok false else .error e

end Sqint

/-- A stored table row for the engine model: column name to string cell
value, in schema order. -/
abbrev Row := List (String × String)

/-- Engine model: whether a row satisfies the equality conjunction
`k1=? and k2=? and ...` of a generated WHERE clause, with the bound
condition values. -/
def rowMatches (conds : List (String × String)) (r : Row) : Bool :=
  conds.all fun kv => r.lookup kv.1 == some kv.2

/-- Engine model: effect on one row of `SET <column>=?` with bound value
`value`. -/
def setCell (r : Row) (column value : String) : Row :=
  r.map fun kv => if kv.1 == column then (kv.1, value) else kv

/-- Engine model: executing the UPDATE statement built by `Database.update`
on a table — every row satisfying the condition conjunction gets the named
column set to the bound value; with no WHERE clause every row matches. -/
def runUpdate (rows : List Row) (column value : String)
    (conds : List (String × String)) : List Row :=
  rows.map fun r => if rowMatches conds r then setCell r column value else r

/-- Engine model: the cursor produced by the single-cell SELECT built by
`Database.query_single` — one result column, and one single-cell row per
stored row satisfying the condition conjunction. -/
def selectSingle (rows : List Row) (column : String)
    (conds : List (String × String)) : Cursor :=
  ⟨some [column],
   (rows.filter fun r => rowMatches conds r).map fun r => [(r.lookup column).getD ""]⟩

/-- Engine model: the row stored by executing the INSERT statement built by
`Database.insert` against a table with column metadata `schema` — a supplied
column gets its bound value, an omitted column gets its declared default
(`none` meaning NULL when no default is declared). -/
def runInsertRow (schema : List Database.ColumnInfo)
    (values : List (String × String)) : List (String × Option String) :=
  schema.map fun c =>
    (c.name, match values.lookup c.name with
             | some v => some v
             | none => c.dflt)

/-- Engine model: full outcome of executing the INSERT built by
`Database.insert`.  With an empty column list the generated text is
`INSERT INTO <t> () VALUES()`, which SQLite rejects as a syntax error;
otherwise the new row of `runInsertRow` is stored. -/
def runInsert (schema : List Database.ColumnInfo)
    (values : List (String × String)) :
    Except PyErr (List (String × Option String)) :=
  if values.isEmpty then .error (.operationalError "syntax error")
  else .ok (runInsertRow schema values)

/-- SQLite-lexer model, body of a double-quoted identifier: consume
characters until the closing quote, reading a doubled quote as one literal
quote character; return the identifier's characters and the unconsumed rest
of the stream.  `none` means the stream ended before a closing quote. -/
def readQuotedBody : List Char → Option (List Char × List Char)
  | [] => none
  | c :: rest =>
      if c = '"' then
        match rest with
        | [] => some ([], [])
        | c2 :: rest2 =>
            if c2 = '"' then
              (readQuotedBody rest2).map fun p => ('"' :: p.1, p.2)
            else
              some ([], rest)
      else
        (readQuotedBody rest).map fun p => (c :: p.1, p.2)

/-- SQLite-lexer model: read one double-quoted identifier from the front of
a character stream. -/
def readQuoted : List Char → Option (List Char × List Char)
  | '"' :: rest => readQuotedBody rest
  | _ => none

theorem readQuotedBody_escapeChars (l : List Char) (rest : List Char)
    (h : rest.head? ≠ some '"') :
    readQuotedBody (escapeChars l ++ '"' :: rest) = some (l, rest) := by
  induction l with
  | nil =>
      cases rest with
      | nil => simp [escapeChars, readQuotedBody]
      | cons c2 rest2 =>
          have hc2 : ¬ c2 = '"' := by
            intro hc
            exact h (by simp [hc])
          simp [escapeChars, readQuotedBody, hc2]
  | cons c cs ih =>
      by_cases hc : c = '"'
      · subst hc
        simp [escapeChars, readQuotedBody, ih]
      · obtain ⟨x, xs, hE⟩ : ∃ x xs, escapeChars cs ++ '"' :: rest = x :: xs := by
          cases hcs : escapeChars cs with
          | nil => exact ⟨'"', rest, by simp⟩
          | cons a as => exact ⟨a, as ++ '"' :: rest, by simp⟩
        have hrec : readQuotedBody (x :: xs) = some (cs, rest) := by rw [← hE]; exact ih
        have hstream : escapeChars (c :: cs) ++ '"' :: rest = c :: x :: xs := by
          simp [escapeChars, hc, hE]
        rw [hstream]
        simp [readQuotedBody, hc, hrec]

theorem readQuoted_escape_identifier (name : String) (rest : List Char)
    (h : rest.head? ≠ some '"') :
    readQuoted ((escape_identifier name).data ++ rest) = some (name.data, rest) := by
  have hdata : (escape_identifier name).data = '"' :: (escapeChars name.data ++ ['"']) := by
    simp [escape_identifier]
  rw [hdata]
  show readQuotedBody ((escapeChars name.data ++ ['"']) ++ rest) = some (name.data, rest)
  rw [List.append_assoc]
  exact readQuotedBody_escapeChars name.data rest h

theorem escape_identifier_injective : Function.Injective escape_identifier := by
  intro a b hab
  have ha := readQuoted_escape_identifier a [] (by simp)
  have hb := readQuoted_escape_identifier b [] (by simp)
  rw [hab, hb] at ha
  have hdata : a.data = b.data := by
    simpa using ha.symm
  cases a
  cases b
  exact congrArg String.mk hdata

/-- C9: `escape_identifier` wraps the name in double quotes and doubles every
embedded double quote (`escape_identifier "a\"b"` yields `"\"a\"\"b\""`), the
mapping is injective, and the quoted form parses back — as a SQLite
double-quoted identifier followed by the rest of the statement — to exactly
the original name, so a quote in the name cannot break out of the identifier
position. -/
theorem C9_escape_identifier :
    escape_identifier "a\"b" = "\"a\"\"b\""
    ∧ Function.Injective escape_identifier
    ∧ ∀ (name : String) (rest : List Char), rest.head? ≠ some '"' →
        readQuoted ((escape_identifier name).data ++ rest) = some (name.data, rest) :=
  ⟨by decide, escape_identifier_injective, readQuoted_escape_identifier⟩

/-- Witness for C9: the round-trip at the concrete name `a"b` followed by a
space and another character. -/
theorem C9_escape_identifier_witness :
    readQuoted ((escape_identifier "a\"b").data ++ [' ', 'x'])
      = some ("a\"b".data, [' ', 'x']) :=
  C9_escape_identifier.2.2 "a\"b" [' ', 'x'] (by decide)

/-- C3 is false of the code: on a table declaring the composite primary key
`(a, b)` — whose `pragma_table_info` rows carry `pk = 1` for `a` and `pk = 2`
for `b` — `Database.primary_keys` keeps only the rows with `pk = 1` and so
returns `["a"]`, while filtering for the primary-key flag as the spec
describes (`spec_primary_keys`) returns `["a", "b"]`.  The `WHERE l.pk = 1`
in the source drops every primary-key column after the first. -/
theorem C3_composite_primary_key_dropped :
    Database.primary_keys
        [⟨0, "a", "INTEGER", none, 1⟩, ⟨1, "b", "INTEGER", none, 2⟩] = ["a"]
    ∧ Database.spec_primary_keys
        [⟨0, "a", "INTEGER", none, 1⟩, ⟨1, "b", "INTEGER", none, 2⟩] = ["a", "b"]
    ∧ Database.primary_keys
        [⟨0, "a", "INTEGER", none, 1⟩, ⟨1, "b", "INTEGER", none, 2⟩]
      ≠ Database.spec_primary_keys
        [⟨0, "a", "INTEGER", none, 1⟩, ⟨1, "b", "INTEGER", none, 2⟩] := by
  refine ⟨by decide, by decide, by decide⟩

/-- C1's full behaviour per path kind: `load` returns `False` only when
`sqlite3.connect` itself raises (an unopenable path); a missing path is
silently created as a fresh empty database and `load` returns `True` with
empty snapshots; an existing file that is not a database makes the first
catalog query raise `sqlite3.DatabaseError`, which nothing in `load`
catches, so the call ends in an unhandled fault instead of returning
`False`; a valid database loads its catalog names. -/
theorem headD_singleton_map (l : List String) :
    (l.map fun n => [n]).map (fun r => r.headD "") = l := by
  induction l with
  | nil => rfl
  | cons a as ih => simpa using ih

theorem C1_load_outcomes :
    Database.load .invalidFile
        = .error (.databaseError "file is not a database")
    ∧ Database.load .missing = .ok (.loaded [] [])
    ∧ Database.load .unopenable = .ok .failed
    ∧ ∀ ts vs, Database.load (.validDb ts vs) = .ok (.loaded ts vs) := by
  refine ⟨rfl, rfl, rfl, fun ts vs => ?_⟩
  calc Database.load (.validDb ts vs)
      = .ok (.loaded ((ts.map fun n => [n]).map fun r => r.headD "")
                     ((vs.map fun n => [n]).map fun r => r.headD "")) := rfl
    _ = .ok (.loaded ts vs) := by
        rw [headD_singleton_map, headD_singleton_map]

/-- C6 is false of the code for everything but the bare `query` call:
before a successful open, `primary_keys` reaches `r[0]` on the `[[]]`
sentinel and raises an uncaught `IndexError`, `table_data` inherits that
fault from its `primary_keys` call, `query_single` raises the same
`IndexError` at `rows[0][0]`, and `update` and `insert` touch
`self.connection` with no `try` around it, so the resulting
`AttributeError` is an unhandled fault that the callers'
`except sqlite3.Error` handlers do not cover. -/
theorem C6_operations_before_open_crash :
    Database.primary_keys_run false (.ok ⟨some ["name"], []⟩) = .error .indexError
    ∧ Database.table_data_run false (.ok ⟨some ["name"], []⟩) [] "t"
        (.ok ⟨some ["rowid", "x"], []⟩) (.ok ⟨some ["x"], []⟩) = .error .indexError
    ∧ Database.query_single false (.ok ⟨some ["name"], []⟩) = .error .indexError
    ∧ Sqint.on_field_editor_change_field (Database.update_exec false (.ok ()))
        = .error .attributeError
    ∧ Sqint.on_insert_editor_insert_row (Database.insert_exec false (.ok ()))
        = .error .attributeError
    ∧ PyErr.attributeError.isSqliteError = false
    ∧ PyErr.indexError.isSqliteError = false :=
  ⟨rfl, rfl, rfl, rfl, rfl, rfl, rfl⟩

/-- C6 as the code actually behaves before a successful open: of the schema
and query operations, only the bare `query` call fails cleanly, yielding the
empty column list and a single empty row (the `AttributeError` from
`self.connection` is caught); `primary_keys`, `table_data` and
`query_single` raise an unhandled `IndexError` from that `[[]]` sentinel,
and `update` and `insert` raise an unhandled `AttributeError` that even
escapes the UI callers' `sqlite3.Error` handlers — crashes, not reported
failures. -/
theorem C6_before_open :
    (∀ eo, Database.query false eo = .ok ([], [[]]))
    ∧ (∀ eo, Database.primary_keys_run false eo = .error .indexError)
    ∧ (∀ pkExec views name rowidExec plainExec,
        Database.table_data_run false pkExec views name rowidExec plainExec
          = .error .indexError)
    ∧ (∀ eo, Database.query_single false eo = .error .indexError)
    ∧ (∀ eo, Database.update_exec false eo = .error .attributeError)
    ∧ (∀ eo, Database.insert_exec false eo = .error .attributeError)
    ∧ (∀ eo, Sqint.on_field_editor_change_field (Database.update_exec false eo)
        = .error .attributeError)
    ∧ (∀ eo, Sqint.on_insert_editor_insert_row (Database.insert_exec false eo)
        = .error .attributeError) :=
  ⟨fun _ => rfl, fun _ => rfl, fun _ _ _ _ _ => rfl, fun _ => rfl,
   fun _ => rfl, fun _ => rfl, fun _ => rfl, fun _ => rfl⟩

/-- C2 is false of the code: with the condition column named `x"y`, the
UPDATE built by `Database.update` and the SELECT built by
`Database.query_single` interpolate the condition-column name raw
(`x"y=?`), not through `escape_identifier` as the spec's wording
(`spec_update_sql`, `spec_query_single_sql`) requires. -/
theorem C2_condition_columns_not_escaped :
    (Database.update_stmt "t" "c" "v" [("x\"y", "1")]).1
        = "UPDATE \"t\" SET \"c\"=?  WHERE x\"y=?"
    ∧ (Database.update_stmt "t" "c" "v" [("x\"y", "1")]).1
        ≠ Database.spec_update_sql "t" "c" [("x\"y", "1")]
    ∧ Database.query_single_sql "t" "c" [("x\"y", "1")]
        = "SELECT \"c\" from \"t\" where x\"y=?"
    ∧ Database.query_single_sql "t" "c" [("x\"y", "1")]
        ≠ Database.spec_query_single_sql "t" "c" [("x\"y", "1")] :=
  ⟨by decide, by decide, by decide, by decide⟩

/-- C2 as the code actually behaves: the table name and the directly named
columns — the PRAGMA argument, the `table_data` FROM target, the
`query_single` selected column and FROM target, the UPDATE target and SET
column, and the INSERT target and column list — all go through
`escape_identifier`, and literal values appear only among the bound
arguments (the SQL text is built from names alone); but the
condition-column names in the WHERE clauses of `update` and `query_single`
are interpolated raw, without `escape_identifier`. -/
theorem C2_escaping_as_implemented :
    (∀ name, Database.table_info_sql name
        = "PRAGMA table_info(" ++ escape_identifier name ++ ");")
    ∧ (∀ views cols name,
        Database.table_data_sql views cols name
            = "SELECT rowid, * FROM " ++ escape_identifier name
        ∨ Database.table_data_sql views cols name
            = "SELECT * FROM " ++ escape_identifier name)
    ∧ (∀ t c conds, conds ≠ [] →
        Database.query_single_sql t c conds
            = "SELECT " ++ escape_identifier c ++ " from " ++ escape_identifier t ++ " "
              ++ "where " ++ String.intercalate " and " (conds.map fun kv => kv.1 ++ "=?")
        ∧ Database.query_single_args conds = some (conds.map fun kv => kv.2))
    ∧ (∀ t c v w, w ≠ [] →
        Database.update_stmt t c v w
            = ("UPDATE " ++ escape_identifier t ++ " SET " ++ escape_identifier c ++ "=? "
                ++ " WHERE " ++ String.intercalate " and " (w.map fun kv => kv.1 ++ "=?"),
               v :: w.map fun kv => kv.2))
    ∧ (∀ t vals,
        Database.insert_stmt t vals
            = ("INSERT INTO " ++ escape_identifier t ++ " ("
                ++ String.intercalate "," (vals.map fun v => escape_identifier v.1)
                ++ ") VALUES(" ++ String.intercalate "," (List.replicate vals.length "?") ++ ")",
               vals.map fun v => v.2)) := by
  refine ⟨fun name => rfl, fun views cols name => ?_, fun t c conds hc => ?_,
          fun t c v w hw => ?_, fun t vals => rfl⟩
  · simp only [Database.table_data_sql]
    split
    · exact Or.inl rfl
    · exact Or.inr rfl
  · have hne : conds.isEmpty = false := by
      cases conds with
      | nil => exact absurd rfl hc
      | cons a as => rfl
    exact ⟨by simp only [Database.query_single_sql, hne, Bool.false_eq_true, if_false],
           by simp [Database.query_single_args, hne]⟩
  · have hne : w.isEmpty = false := by
      cases w with
      | nil => exact absurd rfl hw
      | cons a as => rfl
    simp only [Database.update_stmt, hne, Bool.false_eq_true, if_false,
      List.singleton_append]

/-- Witness for C2's amended statement: the concrete UPDATE and single-cell
SELECT for table `People`, column `name`, condition `id = 1`. -/
theorem C2_escaping_witness :
    Database.update_stmt "People" "name" "Grace" [("id", "1")]
        = ("UPDATE \"People\" SET \"name\"=?  WHERE id=?", ["Grace", "1"])
    ∧ Database.query_single_sql "People" "name" [("id", "1")]
        = "SELECT \"name\" from \"People\" where id=?" := by
  have h := C2_escaping_as_implemented
  constructor
  · rw [h.2.2.2.1 "People" "name" "Grace" [("id", "1")] (by decide)]
    decide
  · rw [(h.2.2.1 "People" "name" [("id", "1")] (by decide)).1]
    decide

/-- C4: a syntactically invalid string submitted on the ad-hoc query path
makes the engine raise `sqlite3.OperationalError` with a non-empty message;
`Database.query` does not catch it, and `Sqint.on_input_submitted` renders
it as a one-column, one-row result whose only column is labelled `Error`
and whose single cell is the non-empty error text — no fault propagates. -/
theorem C4_invalid_query_rendered (msg : String) (h : msg ≠ "") :
    ∃ cols rows,
      Sqint.on_input_submitted
          (Database.query true (Except.error (PyErr.operationalError msg)))
        = Except.ok (cols, rows)
      ∧ cols = ["Error"] ∧ rows = [[msg]]
      ∧ cols.length = 1 ∧ rows.length = 1
      ∧ ∀ r ∈ rows, r.length = 1 ∧ ∀ cell ∈ r, cell ≠ "" := by
  refine ⟨["Error"], [[msg]], rfl, rfl, rfl, rfl, rfl, ?_⟩
  intro r hr
  simp only [List.mem_singleton] at hr
  subst hr
  exact ⟨rfl, by simpa using h⟩

/-- Witness for C4 at the concrete error text sqlite reports for
`SELEC * FROM t`. -/
theorem C4_invalid_query_witness :
    ∃ cols rows,
      Sqint.on_input_submitted
          (Database.query true
            (Except.error (PyErr.operationalError "near \"SELEC\": syntax error")))
        = Except.ok (cols, rows)
      ∧ cols = ["Error"] ∧ rows = [["near \"SELEC\": syntax error"]]
      ∧ cols.length = 1 ∧ rows.length = 1
      ∧ ∀ r ∈ rows, r.length = 1 ∧ ∀ cell ∈ r, cell ≠ "" :=
  C4_invalid_query_rendered "near \"SELEC\": syntax error" (by decide)

/-- C7: the UPDATE built by `Database.update` sets the one named column with
a `?` placeholder, carries one raw `<column>=?` conjunct per condition
joined with `and` when the condition mapping is non-empty and no WHERE
clause at all when it is empty, binds the new value followed by the
condition values in mapping order, executes and then commits; executing the
unconditioned statement updates every row of the table. -/
theorem C7_update_statement (t c v : String) (w : List (String × String))
    (rows : List Row) :
    (Database.update_stmt t c v w).2 = v :: w.map (fun kv => kv.2)
    ∧ (w ≠ [] → (Database.update_stmt t c v w).1
        = "UPDATE " ++ escape_identifier t ++ " SET " ++ escape_identifier c ++ "=? "
          ++ " WHERE " ++ String.intercalate " and " (w.map fun kv => kv.1 ++ "=?"))
    ∧ (Database.update_stmt t c v []).1
        = "UPDATE " ++ escape_identifier t ++ " SET " ++ escape_identifier c ++ "=? "
    ∧ Database.update_ops t c v w
        = [Database.ConnOp.execute (Database.update_stmt t c v w).1
             (Database.update_stmt t c v w).2,
           Database.ConnOp.commit]
    ∧ runUpdate rows c v [] = rows.map fun r => setCell r c v := by
  refine ⟨?_, ?_, rfl, rfl, ?_⟩
  · cases w with
    | nil => rfl
    | cons a as => rfl
  · intro hw
    cases w with
    | nil => exact absurd rfl hw
    | cons a as => rfl
  · simp [runUpdate, rowMatches]

/-- Witness for C7 at the spec's concrete scenario: update `People.name` to
`Grace` where `id = 1`. -/
theorem C7_update_witness :
    (Database.update_stmt "People" "name" "Grace" [("id", "1")]).1
        = "UPDATE \"People\" SET \"name\"=?  WHERE id=?"
    ∧ (Database.update_stmt "People" "name" "Grace" [("id", "1")]).2 = ["Grace", "1"] := by
  have h := C7_update_statement "People" "name" "Grace" [("id", "1")] []
  constructor
  · rw [h.2.1 (by decide)]
    decide
  · exact h.1.trans (by rfl)

/-- C5 is false of the code at one exotic input: a non-view table whose
explicit primary-key column is literally named `rowid`.  `primary_keys`
then returns `["rowid"]` from the explicit column, `table_data`'s test
`primary_keys[0] == 'rowid'` cannot tell this from the fallback, and the
generated SELECT is the rowid-prefixed one, not the plain SELECT the claim
requires for every table with an explicit primary key. -/
theorem C5_explicit_rowid_column_confused :
    Database.table_data_sql [] [⟨0, "rowid", "TEXT", none, 1⟩] "t"
        = "SELECT rowid, * FROM " ++ escape_identifier "t"
    ∧ Database.table_data_sql [] [⟨0, "rowid", "TEXT", none, 1⟩] "t"
        ≠ "SELECT * FROM " ++ escape_identifier "t" :=
  ⟨by decide, by decide⟩

/-- C5 as the code actually behaves: for a non-view table with zero explicit
primary-key columns `primary_keys` falls back to `["rowid"]` and
`table_data` issues the rowid-prefixed SELECT whose first result column is
the row identifier; for a view `table_data` issues the plain SELECT; and for
a table with an explicit primary key the plain SELECT is issued provided no
primary-key column of index 1 is itself named `rowid`. -/
theorem C5_rowid_prefixing (views : List String) (cols : List Database.ColumnInfo)
    (name : String) :
    ((∀ c ∈ cols, c.pk = 0) →
        Database.primary_keys cols = ["rowid"]
        ∧ (¬ name ∈ views →
            Database.table_data_sql views cols name
                = "SELECT rowid, * FROM " ++ escape_identifier name
            ∧ Database.table_data_columns views cols name
                = "rowid" :: cols.map fun c => c.name))
    ∧ (name ∈ views →
        Database.table_data_sql views cols name
            = "SELECT * FROM " ++ escape_identifier name
        ∧ Database.table_data_columns views cols name = cols.map fun c => c.name)
    ∧ ((∀ c ∈ cols, c.pk = 1 → c.name ≠ "rowid") → (∃ c ∈ cols, c.pk = 1) →
        Database.table_data_sql views cols name
            = "SELECT * FROM " ++ escape_identifier name
        ∧ Database.table_data_columns views cols name = cols.map fun c => c.name) := by
  refine ⟨fun h0 => ?_, fun hv => ?_, fun h1 hex => ?_⟩
  · have hf : cols.filter (fun c => c.pk == 1) = [] :=
      List.filter_eq_nil_iff.mpr fun c hc => by simp [h0 c hc]
    have hpk : Database.primary_keys cols = ["rowid"] := by
      simp [Database.primary_keys, hf]
    refine ⟨hpk, fun hm => ?_⟩
    have hcont : views.contains name = false := by simpa using hm
    have hval : Database.table_data_uses_rowid views cols name = true := by
      simp [Database.table_data_uses_rowid, hcont, hpk, hm]
    constructor
    · simp [Database.table_data_sql, hval]
    · simp [Database.table_data_columns, hval]
  · have hcont : views.contains name = true := by simpa using hv
    have hval : Database.table_data_uses_rowid views cols name = false := by
      simp [Database.table_data_uses_rowid, hcont, hv]
    constructor
    · simp [Database.table_data_sql, hval]
    · simp [Database.table_data_columns, hval]
  · obtain ⟨c0, hc0, hpk0⟩ := hex
    have hc0f : c0 ∈ cols.filter (fun c => c.pk == 1) :=
      List.mem_filter.mpr ⟨hc0, by simp [hpk0]⟩
    cases hfil : cols.filter (fun c => c.pk == 1) with
    | nil => exact absurd (hfil ▸ hc0f) (List.not_mem_nil c0)
    | cons d ds =>
        have hdmem : d ∈ cols ∧ (d.pk == 1) = true := by
          have hd : d ∈ cols.filter (fun c => c.pk == 1) := by
            rw [hfil]; exact List.mem_cons_self d ds
          simpa using List.mem_filter.mp hd
        have hdname : d.name ≠ "rowid" := h1 d hdmem.1 (by simpa using hdmem.2)
        have hpk : Database.primary_keys cols = d.name :: ds.map fun c => c.name := by
          simp [Database.primary_keys, hfil]
        have hval : Database.table_data_uses_rowid views cols name = false := by
          simp [Database.table_data_uses_rowid, hpk, hdname]
        constructor
        · simp [Database.table_data_sql, hval]
        · simp [Database.table_data_columns, hval]

/-- Witness for C5's amended statement: a pk-less table is read with the
rowid prefix, a view and a normally keyed table are read plainly. -/
theorem C5_rowid_prefixing_witness :
    Database.primary_keys [⟨0, "x", "TEXT", none, 0⟩] = ["rowid"]
    ∧ Database.table_data_sql [] [⟨0, "x", "TEXT", none, 0⟩] "t"
        = "SELECT rowid, * FROM " ++ escape_identifier "t"
    ∧ Database.table_data_sql ["v"] [⟨0, "x", "TEXT", none, 0⟩] "v"
        = "SELECT * FROM " ++ escape_identifier "v"
    ∧ Database.table_data_sql [] [⟨0, "id", "INTEGER", none, 1⟩] "People"
        = "SELECT * FROM " ++ escape_identifier "People" := by
  have h1 := (C5_rowid_prefixing [] [⟨0, "x", "TEXT", none, 0⟩] "t").1
    (by intro c hc; simp at hc; simp [hc])
  have h2 := (C5_rowid_prefixing ["v"] [⟨0, "x", "TEXT", none, 0⟩] "v").2.1
    (by simp)
  have h3 := (C5_rowid_prefixing [] [⟨0, "id", "INTEGER", none, 1⟩] "People").2.2
    (by intro c hc hpk; simp at hc; simp [hc])
    ⟨⟨0, "id", "INTEGER", none, 1⟩, by simp, rfl⟩
  exact ⟨h1.1, (h1.2 (by simp)).1, h2.1, h3.1⟩

theorem lookup_eq_none_of_not_mem {β : Type} (a : String) (l : List (String × β))
    (h : ¬ a ∈ l.map Prod.fst) : l.lookup a = none := by
  induction l with
  | nil => rfl
  | cons kv rest ih =>
      obtain ⟨k, b⟩ := kv
      simp only [List.map_cons, List.mem_cons] at h
      push_neg at h
      have hne : (a == k) = false := by simpa using h.1
      simp [List.lookup, hne, ih h.2]

/-- C8: the INSERT built by `Database.insert` names exactly the keys present
in the value mapping, in mapping order and each through `escape_identifier`,
with one `?` placeholder per key, binds the corresponding values in the same
order, and commits right after executing; running the statement stores a row
in which an omitted column keeps its declared schema default (never an empty
string) and each supplied column gets its bound value. -/
theorem C8_insert_statement (t : String) (values : List (String × String))
    (schema : List Database.ColumnInfo) :
    Database.insert_stmt t values
      = ("INSERT INTO " ++ escape_identifier t ++ " ("
          ++ String.intercalate "," (values.map fun v => escape_identifier v.1)
          ++ ") VALUES(" ++ String.intercalate "," (List.replicate values.length "?") ++ ")",
         values.map fun v => v.2)
    ∧ Database.insert_ops t values
        = [Database.ConnOp.execute (Database.insert_stmt t values).1
             (Database.insert_stmt t values).2,
           Database.ConnOp.commit]
    ∧ (values ≠ [] → runInsert schema values = .ok (runInsertRow schema values))
    ∧ (∀ c ∈ schema, ¬ c.name ∈ values.map Prod.fst →
        (c.name, c.dflt) ∈ runInsertRow schema values)
    ∧ (∀ c ∈ schema, ∀ val, values.lookup c.name = some val →
        (c.name, some val) ∈ runInsertRow schema values) := by
  refine ⟨rfl, rfl, fun hne => ?_, fun c hc hnm => ?_, fun c hc val hval => ?_⟩
  · have hemp : values.isEmpty = false := by
      cases values with
      | nil => exact absurd rfl hne
      | cons a as => rfl
    simp [runInsert, hemp]
  · have hlk : values.lookup c.name = none := lookup_eq_none_of_not_mem _ _ hnm
    have hmem := List.mem_map_of_mem (fun c : Database.ColumnInfo =>
      (c.name, match values.lookup c.name with | some v => some v | none => c.dflt)) hc
    simpa [runInsertRow, hlk] using hmem
  · have hmem := List.mem_map_of_mem (fun c : Database.ColumnInfo =>
      (c.name, match values.lookup c.name with | some v => some v | none => c.dflt)) hc
    simpa [runInsertRow, hval] using hmem

/-- Witness for C8 at the spec's concrete scenario: inserting only `colA`
into a table `(colA, colB)` where `colB` declares the default `7` leaves
`colB` at `7`, not at the empty string. -/
theorem C8_insert_witness :
    Database.insert_stmt "People" [("colA", "5")]
        = ("INSERT INTO \"People\" (\"colA\") VALUES(?)", ["5"])
    ∧ ("colB", some "7") ∈ runInsertRow
        [⟨0, "colA", "TEXT", none, 0⟩, ⟨1, "colB", "TEXT", some "7", 0⟩] [("colA", "5")]
    ∧ runInsert [⟨0, "colA", "TEXT", none, 0⟩, ⟨1, "colB", "TEXT", some "7", 0⟩]
          [("colA", "5")]
        = .ok (runInsertRow [⟨0, "colA", "TEXT", none, 0⟩, ⟨1, "colB", "TEXT", some "7", 0⟩]
            [("colA", "5")]) := by
  have h := C8_insert_statement "People" [("colA", "5")]
    [⟨0, "colA", "TEXT", none, 0⟩, ⟨1, "colB", "TEXT", some "7", 0⟩]
  refine ⟨h.1.trans (by decide), ?_, h.2.2.1 (by decide)⟩
  exact h.2.2.2.1 ⟨1, "colB", "TEXT", some "7", 0⟩ (by decide) (by decide)

/-- C10: on an open database the single-cell read returns the first cell of
the first result row of its generated SELECT, and when the condition set
matches no stored row the subscript `rows[0]` raises `IndexError` — there is
no returned value and no reported error outcome. -/
theorem C10_query_single (rows : List Row) (column : String)
    (conds : List (String × String)) :
    (rows.filter (fun r => rowMatches conds r) = [] →
        Database.query_single true (.ok (selectSingle rows column conds))
          = .error .indexError)
    ∧ (∀ r rest, rows.filter (fun r => rowMatches conds r) = r :: rest →
        Database.query_single true (.ok (selectSingle rows column conds))
          = .ok ((r.lookup column).getD "")) := by
  constructor
  · intro h
    simp [Database.query_single, Database.query, selectSingle, h]
  · intro r rest h
    simp [Database.query_single, Database.query, selectSingle, h]

/-- Witness for C10: with one stored row `(id 1, name Ada)`, a non-matching
condition set raises `IndexError` and a matching one returns `Ada`. -/
theorem C10_query_single_witness :
    Database.query_single true
        (.ok (selectSingle [[("id", "1"), ("name", "Ada")]] "name" [("id", "2")]))
      = .error .indexError
    ∧ Database.query_single true
        (.ok (selectSingle [[("id", "1"), ("name", "Ada")]] "name" [("id", "1")]))
      = .ok "Ada" := by
  constructor
  · exact (C10_query_single [[("id", "1"), ("name", "Ada")]] "name" [("id", "2")]).1
      (by decide)
  · exact ((C10_query_single [[("id", "1"), ("name", "Ada")]] "name" [("id", "1")]).2
      [("id", "1"), ("name", "Ada")] [] (by decide)).trans (by rfl)

end SqintModel
